import Mathlib

/-!
Verification of the `gpys` archive/cluster module (`src/gpys/__init__.py`).

The development shallowly embeds the parts of the module that the claims
are about:

* `RinexArchive.parse_crinex_filename` and `RinexArchive.parse_rinex_filename`
  (the two filename grammars, implemented in the source as
  `re.findall` with the patterns
  `(\w{4})(\d{3})(\w{1})\.(\d{2})([d])\.[Z]$` and
  `(\w{4})(\d{3})(\w{1})\.(\d{2})([o])$`),
* `RinexArchive.scan_archive_struct` (recursive directory traversal),
* `JobServer.__init__`, `JobServer.cluster_test`, `JobServer.__del__`
  (cluster verification run and teardown).

Python's process-terminating `sys.exit(1)` calls are modelled by the
`PyResult.exit` constructor; a normal return is `PyResult.ok`.
Character classes are modelled on the ASCII fragment of Python's
Unicode-aware `\w` / `\d` (filenames handled by the scanner are ASCII).
-/

/-- Outcome of a Python code path: either a normal return carrying a value,
or process termination via `sys.exit code`. -/
inductive PyResult (α : Type) where
  | ok (val : α)
  | exit (code : Nat)
deriving DecidableEq, Repr

/-- ASCII fragment of Python's regex class `\w`: letters, digits, underscore. -/
def isWordChar (c : Char) : Bool := c.isAlphanum || c = '_'

/-- ASCII fragment of Python's regex class `\d`. -/
def isPyDigit (c : Char) : Bool := c.isDigit

/-- The character at index `i` satisfies `p` (and exists). -/
def testAt (cs : List Char) (i : Nat) (p : Char → Bool) : Bool :=
  match cs[i]? with
  | some c => p c
  | none => false

/-- The character at index `i` is exactly `c`. -/
def litAt (cs : List Char) (i : Nat) (c : Char) : Bool :=
  testAt cs i (fun x => x == c)

/-- The tuple of capture groups produced by the source patterns: both
patterns have five groups `(station)(doy)(session).(yr)(lit)` where `lit`
is the literal class `[d]` (compressed) or `[o]` (plain). -/
structure RegexGroups where
  station : String
  doy : String
  session : String
  yr : String
  lit : String
deriving DecidableEq, Repr

/-- A 14-character string conforms to the body of the crinex pattern
`(\w{4})(\d{3})(\w{1})\.(\d{2})([d])\.[Z]`. -/
def crinexValid (cs : List Char) : Bool :=
  cs.length == 14 &&
  (testAt cs 0 isWordChar && testAt cs 1 isWordChar &&
   testAt cs 2 isWordChar && testAt cs 3 isWordChar &&
   testAt cs 4 isPyDigit && testAt cs 5 isPyDigit && testAt cs 6 isPyDigit &&
   testAt cs 7 isWordChar && litAt cs 8 '.' &&
   testAt cs 9 isPyDigit && testAt cs 10 isPyDigit &&
   litAt cs 11 'd' && litAt cs 12 '.' && litAt cs 13 'Z')

/-- Capture groups of a crinex match: the slices of the matched text at the
groups' fixed offsets. -/
def crinexGroupsOf (cs : List Char) : RegexGroups :=
  ⟨⟨cs.take 4⟩, ⟨(cs.drop 4).take 3⟩, ⟨(cs.drop 7).take 1⟩, ⟨(cs.drop 9).take 2⟩, "d"⟩

/-- Match of the fixed-width (14 characters) crinex pattern body against a
candidate slice. -/
def crinexMatch14 (cs : List Char) : Option RegexGroups :=
  if crinexValid cs then some (crinexGroupsOf cs) else none

/-- A 12-character string conforms to the body of the rinex pattern
`(\w{4})(\d{3})(\w{1})\.(\d{2})([o])`. -/
def rinexValid (cs : List Char) : Bool :=
  cs.length == 12 &&
  (testAt cs 0 isWordChar && testAt cs 1 isWordChar &&
   testAt cs 2 isWordChar && testAt cs 3 isWordChar &&
   testAt cs 4 isPyDigit && testAt cs 5 isPyDigit && testAt cs 6 isPyDigit &&
   testAt cs 7 isWordChar && litAt cs 8 '.' &&
   testAt cs 9 isPyDigit && testAt cs 10 isPyDigit &&
   litAt cs 11 'o')

/-- Capture groups of a rinex match. -/
def rinexGroupsOf (cs : List Char) : RegexGroups :=
  ⟨⟨cs.take 4⟩, ⟨(cs.drop 4).take 3⟩, ⟨(cs.drop 7).take 1⟩, ⟨(cs.drop 9).take 2⟩, "o"⟩

/-- Match of the fixed-width (12 characters) rinex pattern body. -/
def rinexMatch12 (cs : List Char) : Option RegexGroups :=
  if rinexValid cs then some (rinexGroupsOf cs) else none

/-- Python's `$` matches at the end of the string or just before a single
trailing newline; the effective text a `...$` pattern can end in is the
string minus any final newline. -/
def effectiveChars (s : String) : List Char :=
  if s.data[s.data.length - 1]? = some '\n' then s.data.dropLast else s.data

/-- Embedding of `re.findall(r'(\w{4})(\d{3})(\w{1})\.(\d{2})([d])\.[Z]$', filename)`.
Because every element of the pattern has fixed width (14 characters total)
and the pattern is `$`-anchored, the only possible match starts 14
characters before the end of the (effective) string, so `findall` returns
at most one tuple of groups. -/
def crinexFindall (s : String) : List RegexGroups :=
  match crinexMatch14 ((effectiveChars s).drop ((effectiveChars s).length - 14)) with
  | some g => [g]
  | none => []

/-- Embedding of `re.findall(r'(\w{4})(\d{3})(\w{1})\.(\d{2})([o])$', filename)`:
fixed width 12, `$`-anchored, hence at most one match. -/
def rinexFindall (s : String) : List RegexGroups :=
  match rinexMatch12 ((effectiveChars s).drop ((effectiveChars s).length - 12)) with
  | some g => [g]
  | none => []

/-- `RinexArchive.parse_crinex_filename`: returns `sfile[0]` when `findall`
produced a match, `None` otherwise.  (The source wraps the body in
`try/except`; see `parse_crinex_filename_run` for the embedding of that
wrapper.) -/
def parse_crinex_filename (s : String) : Option RegexGroups :=
  match crinexFindall s with
  | g :: _ => some g
  | [] => none

/-- `RinexArchive.parse_rinex_filename`: returns `sfile[0]` when `findall`
produced a match, `[]` (falsy, modelled as `none`) otherwise. -/
def parse_rinex_filename (s : String) : Option RegexGroups :=
  match rinexFindall s with
  | g :: _ => some g
  | [] => none

/-- `RinexArchive.parse_crinex_filename` with its `try/except` wrapper made
explicit: the `except` arm runs `sys.exit(1)` (`PyResult.exit 1`), but every
operation of the `try` body — `re.findall` applied to a `str` with a fixed
valid pattern, the truthiness test, and indexing a list known non-empty —
is total, so no subexpression of the body raises. -/
def parse_crinex_filename_run (s : String) : PyResult (Option RegexGroups) :=
  match crinexFindall s with
  | g :: _ => .ok (some g)
  | [] => .ok none

/-- `RinexArchive.parse_rinex_filename` as a run: the source has no
`try/except` here and every operation of the body is total on `str` input. -/
def parse_rinex_filename_run (s : String) : PyResult (Option RegexGroups) :=
  match rinexFindall s with
  | g :: _ => .ok (some g)
  | [] => .ok none

/-- A directory's contents as seen by `os.scandir`, in iteration order.
A `consDir` entry carries `readable`: whether `os.scandir` on that
subdirectory succeeds or raises (permission / I/O error). -/
inductive FsForest where
  | nil
  | consFile (name : String) (rest : FsForest)
  | consDir (name : String) (readable : Bool) (children : FsForest) (rest : FsForest)
deriving DecidableEq, Repr

/-- Body of `RinexArchive.scan_archive_struct`'s loop over `os.scandir(p)`:
directories are recursed into (`file.extend(...)`), files whose name the
crinex grammar accepts are appended (`entry.path = p + '/' + name`), other
files are skipped.  An unreadable directory makes `os.scandir` raise; the
handler prints and calls `sys.exit(1)` (`SystemExit` is not caught by the
outer `except Exception` frames, so it propagates out of every recursive
call). -/
def scanForest (p : String) : FsForest → PyResult (List String)
  | .nil => .ok []
  | .consFile n rest =>
    match scanForest p rest with
    | .ok fs =>
      .ok ((if (parse_crinex_filename n).isSome then [p ++ "/" ++ n] else []) ++ fs)
    | .exit c => .exit c
  | .consDir _ false _ _ => .exit 1
  | .consDir n true cs rest =>
    match scanForest (p ++ "/" ++ n) cs with
    | .ok sub =>
      match scanForest p rest with
      | .ok fs => .ok (sub ++ fs)
      | .exit c => .exit c
    | .exit c => .exit c

/-- `RinexArchive.scan_archive_struct(rootdir)`: scans the directory at
`rootdir` (whose readability and contents are given). -/
def scan_archive_struct (rootdir : String) (readable : Bool) (entries : FsForest) :
    PyResult (List String) :=
  match readable with
  | true => scanForest rootdir entries
  | false => .exit 1

/-- Reference collector: the paths of exactly the files whose name the
compressed (crinex) grammar accepts, in traversal order. -/
def collectForest (p : String) : FsForest → List String
  | .nil => []
  | .consFile n rest =>
    (if (parse_crinex_filename n).isSome then [p ++ "/" ++ n] else []) ++ collectForest p rest
  | .consDir n _ cs rest => collectForest (p ++ "/" ++ n) cs ++ collectForest p rest

/-- Some directory in the forest (at any depth) is unreadable. -/
def forestHasUnreadable : FsForest → Bool
  | .nil => false
  | .consFile _ rest => forestHasUnreadable rest
  | .consDir _ r cs rest => !r || forestHasUnreadable cs || forestHasUnreadable rest

/-- Terminal result of one dispy job: the remote call either produced a
value (`job.result`) or raised (`job.exception`).  `JobServer.cluster_test`
only ever reads `job.result` for logging; it never branches on it. -/
inductive Outcome where
  | success (value : String)
  | failure (cause : String)
deriving DecidableEq, Repr

/-- A dispy job handle as returned by `cluster.submit_job_id_node`. -/
structure DispyJob where
  id : String
  outcome : Outcome
deriving DecidableEq, Repr

/-- Model of the external dispy transport at the interface
`JobServer` uses: whether `dispy.JobCluster(...)` construction succeeds,
what `cluster.submit_job_id_node(id, node)` returns for each job id and
node (a handle, or `None`), and the value of the `k`-th poll of
`cluster.wait()` in the `while not self.cluster.wait()` loop. -/
structure Backend where
  connectOk : Bool
  submit : String → String → Option DispyJob
  waitSeq : Nat → Bool

/-- First node of the list whose submission returned `None`; the source
tests `None in jobs` and reports
`self.options['node_list'][jobs.index(None)]`, which is exactly the first
such node since jobs are submitted in node-list order. -/
def firstNoneNode (bk : Backend) : List String → Option String
  | [] => none
  | n :: rest =>
    match bk.submit ("InitialTest-" ++ n) n with
    | none => some n
    | some _ => firstNoneNode bk rest

/-- The polling loop `while not self.cluster.wait(): time.sleep(0.1)`,
run for at most `fuel` polls starting at poll index `k`; `none` means the
loop is still running after `fuel` polls (the source has no deadline, so
an always-false `wait` makes it spin forever). -/
def waitLoop (w : Nat → Bool) : Nat → Nat → Option Nat
  | 0, _ => none
  | fuel + 1, k =>
    match w k with
    | true => some k
    | false => waitLoop w fuel (k + 1)

/-- How a `cluster_test` run ended: normal return, or `sys.exit code`. -/
inductive RunOutcome where
  | normal
  | exited (code : Nat)
deriving DecidableEq, Repr

/-- Observable trace of one `JobServer.cluster_test` run: how it ended, the
final value of `self.tested`, whether the wait loop was entered, whether the
`finally` block called `self.cluster.shutdown()`, and which node the
`ConnectionError` message named (if any). -/
structure TestTrace where
  outcome : RunOutcome
  tested : Bool
  waited : Bool
  shutdownCalled : Bool
  failedNode : Option String
deriving DecidableEq, Repr

/-- `JobServer.cluster_test` over `fuel` wait polls.  Control flow of the
source: `connect` failure exits inside `connect` (`self.cluster` still
`None`, so the `finally` block's `isinstance` guard skips shutdown); a
`None` handle raises `ConnectionError` naming the first such node, caught
and turned into `sys.exit(1)` after the `finally` shutdown, without ever
entering the wait loop; otherwise the run polls `cluster.wait()` until it
is true, logs each `job.result` without inspecting it, sets
`self.tested = True` and shuts down.  `none` means the wait loop has not
finished within `fuel` polls. -/
def cluster_test (nodes : List String) (bk : Backend) (fuel : Nat) : Option TestTrace :=
  match bk.connectOk with
  | false =>
    some { outcome := .exited 1, tested := false, waited := false,
           shutdownCalled := false, failedNode := none }
  | true =>
    match firstNoneNode bk nodes with
    | some n =>
      some { outcome := .exited 1, tested := false, waited := false,
             shutdownCalled := true, failedNode := some n }
    | none =>
      match waitLoop bk.waitSeq fuel 0 with
      | none => none
      | some _ =>
        some { outcome := .normal, tested := true, waited := true,
               shutdownCalled := true, failedNode := none }

/-- Result of `JobServer.__init__`: normal construction, process exit from
inside `cluster_test`, or the guard
`if self.tested is False: raise ConnectionError('Connection failed in JobServer.__init__')`. -/
inductive InitResult where
  | ok
  | exited (code : Nat)
  | connErr
deriving DecidableEq, Repr

/-- `JobServer.__init__`: sets `self.tested = False`, runs `cluster_test`,
then raises `ConnectionError` if `self.tested` is still `False`. -/
def jobserver_init (nodes : List String) (bk : Backend) (fuel : Nat) : Option InitResult :=
  match cluster_test nodes bk fuel with
  | none => none
  | some tr =>
    some (match tr.outcome, tr.tested with
      | .exited c, _ => .exited c
      | .normal, true => .ok
      | .normal, false => .connErr)

/-- Modelled from the spec (§6 cluster transport boundary): the backend
handle held in `self.cluster`.  The dispy library is an external
collaborator; its `shutdown` is the interface operation that releases the
handle, and releasing an already-released handle leaves it released. -/
structure ClusterHandle where
  released : Bool
deriving DecidableEq, Repr

/-- Modelled from the spec (§6): `dispy.JobCluster.shutdown()` releases the
backend handle; on an already-released handle it is a no-op. -/
def clusterShutdown (c : ClusterHandle) : ClusterHandle :=
  { c with released := true }

/-- The fields of a `JobServer` instance that `__del__` reads:
`self.cluster` (`None` until `connect` assigns it) and `self.tested`. -/
structure JobServerState where
  cluster : Option ClusterHandle
  tested : Bool
deriving DecidableEq, Repr

/-- `JobServer.__del__`: if `self.cluster` is a `dispy.JobCluster`, call its
`shutdown`; otherwise log and do nothing.  The `except` arm (which would
`sys.exit(1)`) is reachable only if `shutdown` raises, which the transport
interface excludes, so every run returns `.ok`. -/
def jobserver_del (s : JobServerState) : PyResult JobServerState :=
  match s.cluster with
  | some c => .ok { s with cluster := some (clusterShutdown c) }
  | none => .ok s

/-- A transport on which everything works: connection succeeds, every
submission yields a handle whose job succeeds, and the first `wait` poll
reports completion. -/
def bkAllOk : Backend :=
  { connectOk := true,
    submit := fun i _ => some ⟨i, .success "node-host"⟩,
    waitSeq := fun _ => true }

/-- A transport on which every submission yields a handle but the probe
job itself fails remotely; `wait` still reports completion. -/
def bkOutcomeFail : Backend :=
  { connectOk := true,
    submit := fun i _ => some ⟨i, .failure "remote worker raised"⟩,
    waitSeq := fun _ => true }

/-- A transport on which every submission returns `None`. -/
def bkNoHandle : Backend :=
  { connectOk := true,
    submit := fun _ _ => none,
    waitSeq := fun _ => true }

/-- A transport on which submissions succeed but the jobs never finish:
every poll of `cluster.wait()` returns false. -/
def bkNeverDone : Backend :=
  { connectOk := true,
    submit := fun i _ => some ⟨i, .success "pending"⟩,
    waitSeq := fun _ => false }

/-- The spec's scenario 4 tree: three valid compressed files and two
unrelated files spread over two nested directories. -/
def scenarioTree : FsForest :=
  .consFile "abcd001a.21d.Z"
    (.consDir "sub" true
      (.consFile "efgh002b.22d.Z" (.consFile "readme.txt" .nil))
      (.consDir "sub2" true
        (.consFile "ijkl003c.23d.Z" (.consFile "notes.doc" .nil))
        .nil))

theorem litAt_true {cs : List Char} {i : Nat} {c : Char} (h : litAt cs i c = true) :
    cs[i]? = some c := by
  unfold litAt testAt at h
  revert h
  cases cs[i]? with
  | none => intro h; cases h
  | some x =>
    intro h
    simp only [beq_iff_eq] at h
    rw [h]

theorem crinexFindall_append {a b : List Char} (h : crinexValid b = true) :
    crinexFindall ⟨a ++ b⟩ = [crinexGroupsOf b] := by
  have h' := h
  simp only [crinexValid, Bool.and_eq_true, beq_iff_eq] at h'
  have hlen : b.length = 14 := h'.1
  have hZ : b[13]? = some 'Z' := litAt_true h'.2.2
  have hL : (a ++ b).length = a.length + 14 := by rw [List.length_append, hlen]
  have heff : effectiveChars ⟨a ++ b⟩ = a ++ b := by
    have hidx : (a ++ b)[(a ++ b).length - 1]? = some 'Z' := by
      rw [hL]
      have h13 : a.length + 14 - 1 = a.length + 13 := by omega
      rw [h13, List.getElem?_append_right (by omega)]
      have h13b : a.length + 13 - a.length = 13 := by omega
      rw [h13b, hZ]
    show (if (a ++ b)[(a ++ b).length - 1]? = some '\n'
          then (a ++ b).dropLast else (a ++ b)) = a ++ b
    rw [hidx]
    simp
  have hdrop : (a ++ b).drop ((a ++ b).length - 14) = b := by
    rw [hL]
    have h14 : a.length + 14 - 14 = a.length := by omega
    rw [h14, List.drop_left]
  unfold crinexFindall
  rw [heff, hdrop]
  unfold crinexMatch14
  rw [if_pos h]

theorem rinexFindall_append {a b : List Char} (h : rinexValid b = true) :
    rinexFindall ⟨a ++ b⟩ = [rinexGroupsOf b] := by
  have h' := h
  simp only [rinexValid, Bool.and_eq_true, beq_iff_eq] at h'
  have hlen : b.length = 12 := h'.1
  have hO : b[11]? = some 'o' := litAt_true h'.2.2
  have hL : (a ++ b).length = a.length + 12 := by rw [List.length_append, hlen]
  have heff : effectiveChars ⟨a ++ b⟩ = a ++ b := by
    have hidx : (a ++ b)[(a ++ b).length - 1]? = some 'o' := by
      rw [hL]
      have h11 : a.length + 12 - 1 = a.length + 11 := by omega
      rw [h11, List.getElem?_append_right (by omega)]
      have h11b : a.length + 11 - a.length = 11 := by omega
      rw [h11b, hO]
    show (if (a ++ b)[(a ++ b).length - 1]? = some '\n'
          then (a ++ b).dropLast else (a ++ b)) = a ++ b
    rw [hidx]
    simp
  have hdrop : (a ++ b).drop ((a ++ b).length - 12) = b := by
    rw [hL]
    have h12 : a.length + 12 - 12 = a.length := by omega
    rw [h12, List.drop_left]
  unfold rinexFindall
  rw [heff, hdrop]
  unfold rinexMatch12
  rw [if_pos h]

/-- Claim C6 (corrected, counterexample): the claim states that a string
with extra leading characters before an otherwise-valid compressed name
yields NoMatch; but the source patterns carry only the end anchor `$`
(no `^`), so `parse_crinex_filename` matches `"xabcd001a.21d.Z"` and
extracts the fields of its valid 14-character suffix. -/
theorem parse_crinex_leading_chars_cex :
    parse_crinex_filename "xabcd001a.21d.Z" =
      some ⟨"abcd", "001", "a", "21", "d"⟩ ∧
    parse_crinex_filename "xabcd001a.21d.Z" ≠ none := by
  constructor
  · decide
  · decide

/-- Claim C6 (amended): both grammars are anchored only at the end of the
filename: whenever the trailing 14 (compressed) or 12 (plain) characters of
a filename conform to the grammar, a match is reported with the fields of
that suffix, no matter what characters precede it; matching performs no
case folding. -/
theorem grammars_end_anchored (p s : String) :
    (crinexValid s.data = true →
      parse_crinex_filename (p ++ s) = some (crinexGroupsOf s.data)) ∧
    (rinexValid s.data = true →
      parse_rinex_filename (p ++ s) = some (rinexGroupsOf s.data)) := by
  constructor
  · intro h
    have hfa := crinexFindall_append (a := p.data) (b := s.data) h
    have hstr : (⟨p.data ++ s.data⟩ : String) = p ++ s := by
      cases p
      cases s
      rfl
    rw [hstr] at hfa
    unfold parse_crinex_filename
    rw [hfa]
  · intro h
    have hfa := rinexFindall_append (a := p.data) (b := s.data) h
    have hstr : (⟨p.data ++ s.data⟩ : String) = p ++ s := by
      cases p
      cases s
      rfl
    rw [hstr] at hfa
    unfold parse_rinex_filename
    rw [hfa]

/-- Witness for `grammars_end_anchored` at concrete inputs. -/
theorem grammars_end_anchored_witness :
    parse_crinex_filename ("qq" ++ "abcd001a.21d.Z") =
      some (crinexGroupsOf "abcd001a.21d.Z".data) ∧
    parse_rinex_filename ("qq" ++ "abcd001a.21o") =
      some (rinexGroupsOf "abcd001a.21o".data) :=
  ⟨(grammars_end_anchored "qq" "abcd001a.21d.Z").1 (by decide),
   (grammars_end_anchored "qq" "abcd001a.21o").2 (by decide)⟩

/-- Claim C7 (confirmed): for every string accepted by either grammar,
classification returns exactly the station code (characters 0-3), the
day-of-year (characters 4-6), the session letter (character 7) and the
two-digit year (characters 9-10) as embedded in the filename, together
with the grammar's literal. -/
theorem classify_round_trip (s : String) :
    (crinexValid s.data = true →
      parse_crinex_filename s =
        some ⟨⟨s.data.take 4⟩, ⟨(s.data.drop 4).take 3⟩, ⟨(s.data.drop 7).take 1⟩,
              ⟨(s.data.drop 9).take 2⟩, "d"⟩) ∧
    (rinexValid s.data = true →
      parse_rinex_filename s =
        some ⟨⟨s.data.take 4⟩, ⟨(s.data.drop 4).take 3⟩, ⟨(s.data.drop 7).take 1⟩,
              ⟨(s.data.drop 9).take 2⟩, "o"⟩) := by
  constructor
  · intro h
    have hfa := crinexFindall_append (a := []) (b := s.data) h
    rw [List.nil_append] at hfa
    have hstr : (⟨s.data⟩ : String) = s := by
      cases s
      rfl
    rw [hstr] at hfa
    unfold parse_crinex_filename
    rw [hfa]
    rfl
  · intro h
    have hfa := rinexFindall_append (a := []) (b := s.data) h
    rw [List.nil_append] at hfa
    have hstr : (⟨s.data⟩ : String) = s := by
      cases s
      rfl
    rw [hstr] at hfa
    unfold parse_rinex_filename
    rw [hfa]
    rfl

/-- Witness for `classify_round_trip` at the spec's concrete scenarios. -/
theorem classify_round_trip_witness :
    parse_crinex_filename "abcd001a.21d.Z" =
      some ⟨⟨"abcd001a.21d.Z".data.take 4⟩, ⟨("abcd001a.21d.Z".data.drop 4).take 3⟩,
            ⟨("abcd001a.21d.Z".data.drop 7).take 1⟩,
            ⟨("abcd001a.21d.Z".data.drop 9).take 2⟩, "d"⟩ ∧
    parse_rinex_filename "abcd001a.21o" =
      some ⟨⟨"abcd001a.21o".data.take 4⟩, ⟨("abcd001a.21o".data.drop 4).take 3⟩,
            ⟨("abcd001a.21o".data.drop 7).take 1⟩,
            ⟨("abcd001a.21o".data.drop 9).take 2⟩, "o"⟩ :=
  ⟨(classify_round_trip "abcd001a.21d.Z").1 (by decide),
   (classify_round_trip "abcd001a.21o").2 (by decide)⟩

/-- Claim C8 (confirmed): both classifiers are total, deterministic
functions of the string argument; every string — including the empty
string — yields a normal return carrying either extracted fields or
NoMatch (`none`), and the `except` arm of `parse_crinex_filename` (which
would take the `sys.exit(1)` error exit) is unreachable. -/
theorem classify_total_no_exit (s : String) :
    parse_crinex_filename_run s = .ok (parse_crinex_filename s) ∧
    parse_rinex_filename_run s = .ok (parse_rinex_filename s) := by
  constructor
  · unfold parse_crinex_filename_run parse_crinex_filename
    cases crinexFindall s with
    | nil => rfl
    | cons g gs => rfl
  · unfold parse_rinex_filename_run parse_rinex_filename
    cases rinexFindall s with
    | nil => rfl
    | cons g gs => rfl

theorem scanForest_ok {cs : FsForest} (h : forestHasUnreadable cs = false) :
    ∀ p, scanForest p cs = .ok (collectForest p cs) := by
  induction cs with
  | nil =>
    intro p
    rfl
  | consFile n rest ih =>
    intro p
    unfold forestHasUnreadable at h
    unfold scanForest collectForest
    rw [ih h p]
  | consDir n r cc rest ihc ihr =>
    intro p
    unfold forestHasUnreadable at h
    rcases Bool.or_eq_false_iff.mp h with ⟨h1, hrest⟩
    rcases Bool.or_eq_false_iff.mp h1 with ⟨hr, hcc⟩
    have hr' : r = true := by
      revert hr
      cases r with
      | false => intro hx; cases hx
      | true => intro _; rfl
    subst hr'
    unfold scanForest collectForest
    rw [ihc hcc (p ++ "/" ++ n), ihr hrest p]

theorem scanForest_exit {cs : FsForest} (h : forestHasUnreadable cs = true) :
    ∀ p, scanForest p cs = .exit 1 := by
  induction cs with
  | nil =>
    intro p
    cases h
  | consFile n rest ih =>
    intro p
    unfold forestHasUnreadable at h
    unfold scanForest
    rw [ih h p]
  | consDir n r cc rest ihc ihr =>
    intro p
    unfold forestHasUnreadable at h
    cases r with
    | false => rfl
    | true =>
      simp only [Bool.not_true, Bool.false_or, Bool.or_eq_true] at h
      unfold scanForest
      cases hcc : forestHasUnreadable cc with
      | true => rw [ihc hcc (p ++ "/" ++ n)]
      | false =>
        have hrest : forestHasUnreadable rest = true := by
          rcases h with h | h
          · rw [hcc] at h; cases h
          · exact h
        rw [scanForest_ok hcc (p ++ "/" ++ n), ihr hrest p]

/-- Claim C4 (corrected, counterexample): the claim states that the scan
records `(path, cause)` into errors for an unreadable subdirectory and still
returns the entries of readable sibling subtrees; but on a tree whose first
entry is an unreadable directory and whose sibling is a grammar-matching
file, `scan_archive_struct` terminates the whole process (`sys.exit(1)`),
returning no entries and no error record. -/
theorem scan_unreadable_aborts_cex :
    scan_archive_struct "root" true
      (.consDir "bad" false .nil (.consFile "abcd001a.21d.Z" .nil)) = .exit 1 ∧
    (parse_crinex_filename "abcd001a.21d.Z").isSome = true := by
  constructor
  · rfl
  · decide

/-- Claim C4 (amended): whenever any subdirectory of the scanned tree is
unreadable, `scan_archive_struct` aborts the whole scan with process exit 1
— no `(path, cause)` error record exists and no entries from readable
sibling subtrees are returned. -/
theorem scan_aborts_on_unreadable (rootdir : String) (cs : FsForest)
    (h : forestHasUnreadable cs = true) :
    scan_archive_struct rootdir true cs = .exit 1 :=
  scanForest_exit h rootdir

/-- Witness for `scan_aborts_on_unreadable` at a concrete tree. -/
theorem scan_aborts_on_unreadable_witness :
    scan_archive_struct "archive" true
      (.consFile "efgh002b.22d.Z" (.consDir "locked" false .nil .nil)) = .exit 1 :=
  scan_aborts_on_unreadable "archive"
    (.consFile "efgh002b.22d.Z" (.consDir "locked" false .nil .nil)) (by decide)

/-- Claim C5 (corrected, counterexample): the claim states that files
matching either grammar (compressed or plain) are returned; but
`scan_archive_struct` tests only `parse_crinex_filename`, so a tree holding
one file that the plain (rinex) grammar accepts yields zero entries. -/
theorem scan_skips_plain_rinex_cex :
    parse_rinex_filename "abcd001a.21o" = some ⟨"abcd", "001", "a", "21", "o"⟩ ∧
    scan_archive_struct "root" true (.consFile "abcd001a.21o" .nil) = .ok [] := by
  constructor
  · decide
  · decide

/-- Claim C5 (amended): on a tree with no unreadable directory,
`scan_archive_struct` returns exactly the paths of the files whose name the
compressed (crinex) grammar accepts, in traversal order (hence set-equal to
the compressed-matching paths); files matching only the plain grammar and
all other non-matching files are skipped silently. -/
theorem scan_returns_crinex_matches (rootdir : String) (cs : FsForest)
    (h : forestHasUnreadable cs = false) :
    scan_archive_struct rootdir true cs = .ok (collectForest rootdir cs) :=
  scanForest_ok h rootdir

/-- Witness for `scan_returns_crinex_matches` at the spec's scenario 4
tree: three compressed files are returned, the two unrelated files are
skipped. -/
theorem scan_returns_crinex_matches_witness :
    scan_archive_struct "arch" true scenarioTree =
      .ok ["arch/abcd001a.21d.Z", "arch/sub/efgh002b.22d.Z",
           "arch/sub2/ijkl003c.23d.Z"] := by
  have h := scan_returns_crinex_matches "arch" scenarioTree (by decide)
  rw [h]
  decide

theorem firstNoneNode_eq_none_iff (bk : Backend) (nodes : List String) :
    firstNoneNode bk nodes = none ↔
      ∀ n ∈ nodes, (bk.submit ("InitialTest-" ++ n) n).isSome = true := by
  induction nodes with
  | nil =>
    constructor
    · intro _ n hn
      cases hn
    · intro _
      rfl
  | cons m rest ih =>
    constructor
    · intro h n hn
      revert h
      unfold firstNoneNode
      cases hs : bk.submit ("InitialTest-" ++ m) m with
      | none =>
        intro h
        cases h
      | some j =>
        intro h
        rcases List.mem_cons.mp hn with h1 | hmem
        · subst h1
          rw [hs]
          rfl
        · exact (ih.mp h) n hmem
    · intro hall
      unfold firstNoneNode
      cases hs : bk.submit ("InitialTest-" ++ m) m with
      | none =>
        have hm := hall m (List.mem_cons_self m rest)
        rw [hs] at hm
        cases hm
      | some j =>
        exact ih.mpr (fun n hn => hall n (List.mem_cons_of_mem m hn))

theorem waitLoop_none_of_never {w : Nat → Bool} (hw : ∀ k, w k = false) :
    ∀ fuel k0, waitLoop w fuel k0 = none := by
  intro fuel
  induction fuel with
  | zero =>
    intro k0
    rfl
  | succ m ih =>
    intro k0
    unfold waitLoop
    rw [hw k0]
    exact ih (k0 + 1)

/-- Claim C1 (corrected, counterexample): the claim states that the run is
reported successful (`tested = True`) only when every node's job outcome is
`Success`; but on a one-node run whose submitted probe job resolves with a
failure outcome, `cluster_test` still returns normally with
`tested = True`, because the source never inspects job outcomes — it only
checks for `None` handles and waits for completion. -/
theorem cluster_test_ignores_job_outcomes_cex :
    cluster_test ["a"] bkOutcomeFail 1 =
      some { outcome := .normal, tested := true, waited := true,
             shutdownCalled := true, failedNode := none } ∧
    bkOutcomeFail.submit "InitialTest-a" "a" =
      some { id := "InitialTest-a", outcome := .failure "remote worker raised" } := by
  constructor
  · rfl
  · rfl

/-- Claim C1 (amended): `cluster_test` sets `tested` to `True` iff the
connection succeeded and every configured node's probe submission returned
a non-null handle (the wait having completed, since the run returned);
per-job `Success`/`Failure` outcomes are never examined, and only the
null-handle case yields the `Failed` exit naming the first failing node. -/
theorem cluster_test_tested_iff_handles (nodes : List String) (bk : Backend)
    (fuel : Nat) (tr : TestTrace) (h : cluster_test nodes bk fuel = some tr) :
    tr.tested = true ↔
      (bk.connectOk = true ∧
       ∀ n ∈ nodes, (bk.submit ("InitialTest-" ++ n) n).isSome = true) := by
  revert h
  unfold cluster_test
  cases hc : bk.connectOk with
  | false =>
    intro h
    injection h with h'
    subst h'
    constructor
    · intro hx
      cases hx
    · intro hx
      cases hx.1
  | true =>
    cases hf : firstNoneNode bk nodes with
    | some n =>
      intro h
      injection h with h'
      subst h'
      constructor
      · intro hx
        cases hx
      · intro hx
        have := (firstNoneNode_eq_none_iff bk nodes).mpr hx.2
        rw [hf] at this
        cases this
    | none =>
      cases hw : waitLoop bk.waitSeq fuel 0 with
      | none =>
        intro h
        cases h
      | some k =>
        intro h
        injection h with h'
        subst h'
        constructor
        · intro _
          exact ⟨rfl, (firstNoneNode_eq_none_iff bk nodes).mp hf⟩
        · intro _
          rfl

/-- Witness for `cluster_test_tested_iff_handles` on a one-node run over a
transport on which everything works. -/
theorem cluster_test_tested_iff_handles_witness :
    ({ outcome := .normal, tested := true, waited := true,
       shutdownCalled := true, failedNode := none } : TestTrace).tested = true ↔
      (bkAllOk.connectOk = true ∧
       ∀ n ∈ ["a"], (bkAllOk.submit ("InitialTest-" ++ n) n).isSome = true) :=
  cluster_test_tested_iff_handles ["a"] bkAllOk 1
    { outcome := .normal, tested := true, waited := true,
      shutdownCalled := true, failedNode := none } rfl

/-- Claim C2 (confirmed): whenever the connection succeeded and some node's
probe submission returned a null handle, `cluster_test` exits with code 1
identifying the first such node (`node_list[jobs.index(None)]`), never
enters the wait loop (`waited = false`, so no deadline budget is consumed
on the remaining handles), and the `finally` block still shuts down the
backend handle (`shutdownCalled = true`). -/
theorem cluster_test_null_handle_exits (nodes : List String) (bk : Backend)
    (fuel : Nat) (n : String) (hc : bk.connectOk = true)
    (hf : firstNoneNode bk nodes = some n) :
    cluster_test nodes bk fuel =
      some { outcome := .exited 1, tested := false, waited := false,
             shutdownCalled := true, failedNode := some n } := by
  unfold cluster_test
  rw [hc, hf]

/-- Witness for `cluster_test_null_handle_exits` on a two-node run over a
transport that returns no handles. -/
theorem cluster_test_null_handle_exits_witness :
    cluster_test ["a", "b"] bkNoHandle 3 =
      some { outcome := .exited 1, tested := false, waited := false,
             shutdownCalled := true, failedNode := some "a" } :=
  cluster_test_null_handle_exits ["a", "b"] bkNoHandle 3 "a" rfl rfl

/-- Claim C3 (corrected, counterexample): the claim states that the wait is
deadline-bounded — it returns once all handles are resolved or the deadline
has passed, recording `TimedOut` for unresolved handles; but the source's
`while not self.cluster.wait(): time.sleep(0.1)` loop has no deadline: on a
transport whose jobs never finish, `cluster_test` never returns, however
many polls elapse, and no result is ever recorded for any handle. -/
theorem cluster_test_never_returns_cex :
    ¬ ∃ fuel tr, cluster_test ["a"] bkNeverDone fuel = some tr := by
  rintro ⟨fuel, tr, h⟩
  unfold cluster_test at h
  rw [show firstNoneNode bkNeverDone ["a"] = none from rfl] at h
  rw [waitLoop_none_of_never (w := bkNeverDone.waitSeq) (fun _ => rfl) fuel 0] at h
  exact Option.noConfusion h

/-- Claim C3 (amended): the wait in `cluster_test` is unbounded: when the
connection succeeded, every submission yielded a handle, and the backend
never reports the jobs complete, the run never returns — for every number
of wait polls it is still inside the loop — and consequently no handle is
ever recorded as `TimedOut` (no such outcome exists in the run's result). -/
theorem cluster_test_wait_unbounded (nodes : List String) (bk : Backend)
    (hc : bk.connectOk = true) (hn : firstNoneNode bk nodes = none)
    (hw : ∀ k, bk.waitSeq k = false) :
    ∀ fuel, cluster_test nodes bk fuel = none := by
  intro fuel
  unfold cluster_test
  rw [hc, hn, waitLoop_none_of_never hw fuel 0]

/-- Witness for `cluster_test_wait_unbounded` after seven polls on the
never-completing transport. -/
theorem cluster_test_wait_unbounded_witness :
    cluster_test ["a"] bkNeverDone 7 = none :=
  cluster_test_wait_unbounded ["a"] bkNeverDone rfl rfl (fun _ => rfl) 7

/-- Claim C9 (confirmed): `JobServer.__del__` (the shutdown path) is safe
from any state and idempotent: it always returns normally (never raises,
never exits), running it on its own result changes nothing, and on an
instance that never connected (`self.cluster` is `None`) it is a no-op. -/
theorem shutdown_idempotent_safe (s : JobServerState) :
    (∃ s₂, jobserver_del s = .ok s₂ ∧ jobserver_del s₂ = .ok s₂) ∧
    (s.cluster = none → jobserver_del s = .ok s) := by
  constructor
  · cases hc : s.cluster with
    | none =>
      refine ⟨s, ?_, ?_⟩ <;>
        · unfold jobserver_del
          rw [hc]
    | some c =>
      refine ⟨{ s with cluster := some (clusterShutdown c) }, ?_, ?_⟩
      · unfold jobserver_del
        rw [hc]
      · rfl
  · intro hc
    unfold jobserver_del
    rw [hc]

/-- Witness for `shutdown_idempotent_safe` on a never-connected instance. -/
theorem shutdown_idempotent_safe_witness :
    jobserver_del { cluster := none, tested := false } =
      .ok { cluster := none, tested := false } :=
  (shutdown_idempotent_safe { cluster := none, tested := false }).2 rfl

theorem cluster_test_normal_tested (nodes : List String) (bk : Backend)
    (fuel : Nat) (tr : TestTrace) (h : cluster_test nodes bk fuel = some tr)
    (hn : tr.outcome = RunOutcome.normal) : tr.tested = true := by
  revert h
  unfold cluster_test
  cases bk.connectOk with
  | false =>
    intro h
    injection h with h'
    subst h'
    cases hn
  | true =>
    cases firstNoneNode bk nodes with
    | some n =>
      intro h
      injection h with h'
      subst h'
      cases hn
    | none =>
      cases waitLoop bk.waitSeq fuel 0 with
      | none =>
        intro h
        cases h
      | some k =>
        intro h
        injection h with h'
        subst h'
        rfl

/-- Claim C10 (confirmed): whenever `cluster_test` returns normally,
`self.tested` is `True`; consequently `JobServer.__init__` can never take
the branch raising `ConnectionError('Connection failed in JobServer.__init__')`
— every completed construction yields `.ok` or a process exit, never
`.connErr`. -/
theorem init_conn_error_unreachable (nodes : List String) (bk : Backend)
    (fuel : Nat) (r : InitResult) (h : jobserver_init nodes bk fuel = some r) :
    r ≠ InitResult.connErr := by
  revert h
  unfold jobserver_init
  cases hct : cluster_test nodes bk fuel with
  | none =>
    intro h
    cases h
  | some tr =>
    intro h
    injection h with h'
    subst h'
    cases ho : tr.outcome with
    | exited c =>
      exact fun hx => InitResult.noConfusion hx
    | normal =>
      have ht : tr.tested = true := cluster_test_normal_tested nodes bk fuel tr hct ho
      rw [ht]
      exact fun hx => InitResult.noConfusion hx

/-- Witness for `init_conn_error_unreachable`: a concrete completed
construction yields `.ok`, which is not the `ConnectionError` branch. -/
theorem init_conn_error_unreachable_witness :
    jobserver_init ["a"] bkAllOk 1 = some InitResult.ok ∧
    InitResult.ok ≠ InitResult.connErr :=
  ⟨rfl, init_conn_error_unreachable ["a"] bkAllOk 1 InitResult.ok rfl⟩
